import Mathlib

/-!
Shallow embedding of the JNI lifecycle layer and SOCKS5 front-end of
`src/tools/arti-build/src/lib.rs` (the `zemzeme-android` Arti bridge).

The Rust file keeps process-wide singleton state in static mutexes:
`ARTI_CLIENT : Option<Arc<TorClient>>`, `TOKIO_RUNTIME : Option<Runtime>`,
`SOCKS_TASK : Option<JoinHandle>`, plus a `Once` guard for runtime creation.
We model that state as a record, the opaque `TorClient` handle as a `Nat`
identifier, and each exported JNI function as a pure state transformer that
also takes the outcomes of its environment interactions (string conversion,
runtime construction, config build, bootstrap, TCP bind) as explicit
parameters, returning the new state and the `jint` result code.

The per-connection SOCKS5 handler `handle_socks_connection` is modelled as a
pure function from the two byte buffers returned by the two `stream.read`
calls (the greeting and the request) to the list of replies written to the
client, the `(host, port)` target passed to `client.connect` (if reached),
and the `Result` value of the function.
-/

/-- Information recorded about a spawned SOCKS listener task: the id of the
tokio task and the Arti client handle that was cloned into it. -/
structure TaskInfo where
  taskId : Nat
  clientHandle : Nat
deriving Repr, DecidableEq

/-- Lifecycle phases, as announced by the `AMEx: state changed to ...` log
lines emitted by the lifecycle functions. -/
inductive Lifecycle
  | Uninitialized
  | Initialized
  | Starting
  | Stopping
  | Stopped
deriving Repr, DecidableEq

/-- The process-wide singleton state held in the static mutexes of the Rust
file: `ARTI_CLIENT`, `TOKIO_RUNTIME`, `SOCKS_TASK`, `INIT_ONCE`, plus the
lifecycle phase announced by log lines and the ids of listener tasks that
have been aborted. `JAVA_VM` and `LOG_CALLBACK` carry no algorithmic
content and are omitted. -/
structure GlobalState where
  artiClient : Option Nat
  tokioRuntime : Bool
  initOnceRan : Bool
  socksTask : Option TaskInfo
  abortedTasks : List Nat
  lifecycle : Lifecycle
deriving Repr, DecidableEq

/-- The state at process start: every static is `None`, the `Once` has not
run. -/
def initialState : GlobalState :=
  { artiClient := none
    tokioRuntime := false
    initOnceRan := false
    socksTask := none
    abortedTasks := []
    lifecycle := Lifecycle.Uninitialized }

/-- Model of `Java_org_torproject_arti_ArtiNative_initialize`.
Environment outcomes are passed explicitly: `strOk` is whether
`env.get_string(data_dir)` succeeds; `engineOk` is whether
`tokio::runtime::Builder::new_multi_thread().build()` succeeds (consulted
only if the `INIT_ONCE` guard has not run yet); `configOk` is whether
`TorClientConfigBuilder::from_directories(...).build()` succeeds; `bootRes`
is `some h` when `TorClient::create_bootstrapped(config)` succeeds with
client handle `h`, `none` when it fails. Returns the new global state and
the `jint` code. -/
def initArti (s : GlobalState) (strOk engineOk configOk : Bool)
    (bootRes : Option Nat) : GlobalState × Int :=
  if strOk = false then
    (s, -1)
  else
    let s1 : GlobalState := { s with lifecycle := Lifecycle.Initialized }
    let s2 : GlobalState :=
      if s1.initOnceRan then s1
      else { s1 with initOnceRan := true, tokioRuntime := engineOk }
    if s2.tokioRuntime = false then
      (s2, -2)
    else if configOk = false then
      (s2, -3)
    else
      match bootRes with
      | none => (s2, -3)
      | some h => ({ s2 with artiClient := some h }, 0)

/-- Taking and aborting the stored SOCKS task, as both
`startSocksProxy` and `stop` do with
`if let Some(handle) = SOCKS_TASK.lock().unwrap().take() { handle.abort(); }`. -/
def abortTask (s : GlobalState) : GlobalState :=
  match s.socksTask with
  | some t => { s with socksTask := none, abortedTasks := t.taskId :: s.abortedTasks }
  | none => s

/-- Whether `"127.0.0.1:" ++ port` parses as a socket address: the port
field of a `SocketAddrV4` is a `u16`, so parsing (inside
`TcpListener::bind`) fails for any value outside `0..=65535` (negative
`jint` values render with a leading minus sign and never parse). -/
def addrPortValid (port : Int) : Bool :=
  decide (0 ≤ port) && decide (port ≤ 65535)

/-- Model of `Java_org_torproject_arti_ArtiNative_startSocksProxy`.
`port` is the `jint` argument; `bindEnvOk` is whether the operating system
lets `TcpListener::bind("127.0.0.1:{port}")` succeed for a parseable
address (port free, address available); `newTaskId` names the task spawned
on success. The function first aborts any stored task, then checks
`ARTI_CLIENT` (code -1 if unset), then `TOKIO_RUNTIME` (code -2 if unset),
then binds synchronously (code -3 on failure), and only then spawns and
stores the listener task and returns 0. -/
def startProxy (s : GlobalState) (port : Int) (bindEnvOk : Bool)
    (newTaskId : Nat) : GlobalState × Int :=
  let s1 : GlobalState := { s with lifecycle := Lifecycle.Starting }
  let s2 : GlobalState := abortTask s1
  match s2.artiClient with
  | none => (s2, -1)
  | some h =>
    if s2.tokioRuntime = false then
      (s2, -2)
    else if (addrPortValid port && bindEnvOk) = false then
      (s2, -3)
    else
      ({ s2 with socksTask := some ⟨newTaskId, h⟩ }, 0)

/-- Model of `Java_org_torproject_arti_ArtiNative_stop`: aborts the stored
SOCKS task if any, sleeps 100 ms on the runtime if present (no state
effect), does NOT clear `ARTI_CLIENT`, logs the `Stopped` transition, and
returns 0 unconditionally. -/
def stop (s : GlobalState) : GlobalState × Int :=
  let s1 : GlobalState := { s with lifecycle := Lifecycle.Stopping }
  let s2 : GlobalState := abortTask s1
  ({ s2 with lifecycle := Lifecycle.Stopped }, 0)

/-- One lifecycle operation together with its environment outcomes.
`opGetVersion` and `opSetLogCallback` only touch the omitted
`JAVA_VM`/`LOG_CALLBACK` statics, so they leave the modelled state
unchanged. -/
inductive Op
  | opInitArti (strOk engineOk configOk : Bool) (bootRes : Option Nat)
  | opStartProxy (port : Int) (bindEnvOk : Bool) (newTaskId : Nat)
  | opStop
  | opGetVersion
  | opSetLogCallback

/-- The state reached by running one operation. -/
def step (s : GlobalState) : Op → GlobalState
  | Op.opInitArti a b c d => (initArti s a b c d).1
  | Op.opStartProxy p b t => (startProxy s p b t).1
  | Op.opStop => (stop s).1
  | Op.opGetVersion => s
  | Op.opSetLogCallback => s

/-- Whether an operation is a `startSocksProxy` call. -/
def isStartProxyOp : Op → Bool
  | Op.opStartProxy _ _ _ => true
  | _ => false

/-- States reachable from process start by any sequence of JNI calls with
any environment outcomes. -/
inductive Reachable : GlobalState → Prop
  | refl : Reachable initialState
  | next {s : GlobalState} (op : Op) : Reachable s → Reachable (step s op)

/-- The Unicode replacement character emitted by lossy UTF-8 decoding. -/
def replChar : Char := Char.ofNat 0xFFFD

/-- Whether a byte is a UTF-8 continuation byte (`0x80..=0xBF`). -/
def isCont (b : Nat) : Bool := decide (0x80 ≤ b) && decide (b ≤ 0xBF)

/-- Model of Rust `String::from_utf8_lossy`: decodes the byte list as UTF-8,
replacing each maximal ill-formed prefix with one replacement character and
resuming after the bytes consumed by the failed sequence, exactly as the
standard library validator does (restricted first continuation ranges for
`0xE0`, `0xED`, `0xF0`, `0xF4`; starts `0x80..=0xC1` and `0xF5..=0xFF` are
always invalid). -/
def utf8DecodeLossyAux : List Nat → List Char
  | [] => []
  | b :: rest =>
    if b < 0x80 then
      Char.ofNat b :: utf8DecodeLossyAux rest
    else if decide (0xC2 ≤ b) && decide (b ≤ 0xDF) then
      match rest with
      | [] => [replChar]
      | c1 :: r =>
        if isCont c1 then
          Char.ofNat ((b - 0xC0) * 0x40 + (c1 - 0x80)) :: utf8DecodeLossyAux r
        else
          replChar :: utf8DecodeLossyAux (c1 :: r)
    else if decide (0xE0 ≤ b) && decide (b ≤ 0xEF) then
      match rest with
      | [] => [replChar]
      | c1 :: r1 =>
        let okC1 : Bool :=
          if b = 0xE0 then decide (0xA0 ≤ c1) && decide (c1 ≤ 0xBF)
          else if b = 0xED then decide (0x80 ≤ c1) && decide (c1 ≤ 0x9F)
          else isCont c1
        if okC1 then
          match r1 with
          | [] => [replChar]
          | c2 :: r2 =>
            if isCont c2 then
              Char.ofNat ((b - 0xE0) * 0x1000 + (c1 - 0x80) * 0x40 + (c2 - 0x80)) ::
                utf8DecodeLossyAux r2
            else
              replChar :: utf8DecodeLossyAux (c2 :: r2)
        else
          replChar :: utf8DecodeLossyAux (c1 :: r1)
    else if decide (0xF0 ≤ b) && decide (b ≤ 0xF4) then
      match rest with
      | [] => [replChar]
      | c1 :: r1 =>
        let okC1 : Bool :=
          if b = 0xF0 then decide (0x90 ≤ c1) && decide (c1 ≤ 0xBF)
          else if b = 0xF4 then decide (0x80 ≤ c1) && decide (c1 ≤ 0x8F)
          else isCont c1
        if okC1 then
          match r1 with
          | [] => [replChar]
          | c2 :: r2 =>
            if isCont c2 then
              match r2 with
              | [] => [replChar]
              | c3 :: r3 =>
                if isCont c3 then
                  Char.ofNat ((b - 0xF0) * 0x40000 + (c1 - 0x80) * 0x1000 +
                      (c2 - 0x80) * 0x40 + (c3 - 0x80)) :: utf8DecodeLossyAux r3
                else
                  replChar :: utf8DecodeLossyAux (c3 :: r3)
            else
              replChar :: utf8DecodeLossyAux (c2 :: r2)
        else
          replChar :: utf8DecodeLossyAux (c1 :: r1)
    else
      replChar :: utf8DecodeLossyAux rest

/-- Lossy UTF-8 decoding to a string, as
`String::from_utf8_lossy(bytes).to_string()`. -/
def utf8DecodeLossy (bytes : List Nat) : String :=
  String.mk (utf8DecodeLossyAux bytes)

/-- Rendering of one byte with the Rust format specifier `02x`, as applied
to a `u8` value: exactly two lowercase hexadecimal digits, zero-padded. -/
def hex02 (b : Nat) : String :=
  String.mk [Nat.digitChar (b / 16), Nat.digitChar (b % 16)]

/-- Dotted-decimal rendering of four bytes, as the Rust
`format` call with four `u8` display arguments separated by dots. -/
def dottedDecimal (a b c d : Nat) : String :=
  toString a ++ "." ++ toString b ++ "." ++ toString c ++ "." ++ toString d

/-- `u16::from_be_bytes([hi, lo])`. -/
def u16FromBeBytes (hi lo : Nat) : Nat := 256 * hi + lo

/-- The eight colon-separated IPv6 groups built from request bytes 4..19:
group `i` is the `02x` rendering of byte `4+2i` followed by that of byte
`4+2i+1`, as in the Rust format string of the `0x04` arm. -/
def ipv6Groups (request : List Nat) : List String :=
  [ hex02 (request.getD 4 0) ++ hex02 (request.getD 5 0)
  , hex02 (request.getD 6 0) ++ hex02 (request.getD 7 0)
  , hex02 (request.getD 8 0) ++ hex02 (request.getD 9 0)
  , hex02 (request.getD 10 0) ++ hex02 (request.getD 11 0)
  , hex02 (request.getD 12 0) ++ hex02 (request.getD 13 0)
  , hex02 (request.getD 14 0) ++ hex02 (request.getD 15 0)
  , hex02 (request.getD 16 0) ++ hex02 (request.getD 17 0)
  , hex02 (request.getD 18 0) ++ hex02 (request.getD 19 0) ]

/-- The fixed 10-byte SOCKS5 reply `[0x05, code, 0x00, 0x01, 0,0,0,0, 0,0]`
used for every reply the handler writes after the handshake. -/
def socksReply (code : Nat) : List Nat :=
  [0x05, code, 0x00, 0x01, 0, 0, 0, 0, 0, 0]

deriving instance DecidableEq for Except

/-- Observable outcome of one run of `handle_socks_connection`: the byte
strings written to the client socket in order, the `(host, port)` pair
passed to `client.connect` when that call is reached, and the returned
`Result` (the error strings are the `anyhow` messages of the source; the
connect-failure error carries the collaborator error, modelled by a fixed
message). -/
structure HandlerResult where
  writes : List (List Nat)
  connectAttempt : Option (String × Nat)
  result : Except String Unit
deriving Repr, DecidableEq

/-- Tail of the handler after a target was parsed: issue
`client.connect((host, port))`; on failure write reply code 0x05 and
return the error, on success write reply code 0x00 and relay (the relay
itself has no parsed observable output; the function then returns the
success value). `handshakeWrites` are the writes already performed. -/
def connectAndRelay (handshakeWrites : List (List Nat)) (connectOk : Bool)
    (host : String) (port : Nat) : HandlerResult :=
  if connectOk then
    { writes := handshakeWrites ++ [socksReply 0x00]
      connectAttempt := some (host, port)
      result := Except.ok () }
  else
    { writes := handshakeWrites ++ [socksReply 0x05]
      connectAttempt := some (host, port)
      result := Except.error "Failed to connect through Tor" }

/-- Model of `handle_socks_connection`. `greeting` is the byte list
returned by the first `stream.read` (only its length is consulted),
`request` the byte list returned by the second read; `connectOk` is
whether `client.connect` succeeds. The 512-byte buffer is only ever
indexed below the number of bytes read, so indexing the read list with
default 0 is exact. -/
def handle_socks_connection (greeting request : List Nat)
    (connectOk : Bool) : HandlerResult :=
  if greeting.length < 2 then
    { writes := [], connectAttempt := none
      result := Except.error "Invalid SOCKS handshake" }
  else
    let w0 : List (List Nat) := [[0x05, 0x00]]
    if request.length < 10 then
      { writes := w0, connectAttempt := none
        result := Except.error "Invalid SOCKS request" }
    else
      let buf : Nat → Nat := fun i => request.getD i 0
      let version := buf 0
      let cmd := buf 1
      let atyp := buf 3
      if version ≠ 0x05 then
        { writes := w0, connectAttempt := none
          result := Except.error ("Unsupported SOCKS version: " ++ toString version) }
      else if cmd ≠ 0x01 then
        { writes := w0 ++ [socksReply 0x07], connectAttempt := none
          result := Except.error ("Unsupported SOCKS command: " ++ toString cmd) }
      else if atyp = 0x01 then
        connectAndRelay w0 connectOk
          (dottedDecimal (buf 4) (buf 5) (buf 6) (buf 7))
          (u16FromBeBytes (buf 8) (buf 9))
      else if atyp = 0x03 then
        let len := buf 4
        if request.length < 5 + len + 2 then
          { writes := w0, connectAttempt := none
            result := Except.error "Invalid domain name length" }
        else
          connectAndRelay w0 connectOk
            (utf8DecodeLossy ((request.drop 5).take len))
            (u16FromBeBytes (buf (5 + len)) (buf (5 + len + 1)))
      else if atyp = 0x04 then
        if request.length < 22 then
          { writes := w0 ++ [socksReply 0x01], connectAttempt := none
            result := Except.error "Truncated IPv6 request" }
        else
          connectAndRelay w0 connectOk
            (String.intercalate ":" (ipv6Groups request))
            (u16FromBeBytes (buf 20) (buf 21))
      else
        { writes := w0 ++ [socksReply 0x08], connectAttempt := none
          result := Except.error ("Unsupported address type: " ++ toString atyp) }

/-- Combined state invariant: a live runtime implies the `Once` guard has
run, and a stored client handle implies a live runtime (the handle is only
ever stored from inside `runtime.block_on`). -/
def StateInv (s : GlobalState) : Prop :=
  (s.tokioRuntime = true → s.initOnceRan = true) ∧
  ((s.artiClient).isSome = true → s.tokioRuntime = true)

/-- A state in which a client is stored, the runtime exists and a listener
task with id 3 is currently stored (as after a successful `initialize`
followed by a successful `startSocksProxy`). -/
def runningState : GlobalState :=
  { artiClient := some 7
    tokioRuntime := true
    initOnceRan := true
    socksTask := some ⟨3, 7⟩
    abortedTasks := []
    lifecycle := Lifecycle.Starting }

/-- A state in which the runtime exists but no client is stored yet (as
after an `initialize` call whose bootstrap failed). -/
def engineReadyState : GlobalState :=
  { artiClient := none
    tokioRuntime := true
    initOnceRan := true
    socksTask := none
    abortedTasks := []
    lifecycle := Lifecycle.Initialized }

/-- One event observed by the accept loop: a successful `listener.accept()`
yielding a connection, or an accept error. -/
inductive AcceptEvent
  | conn (id : Nat)
  | acceptErr
deriving Repr, DecidableEq

/-- Model of the accept loop spawned by `startSocksProxy`: it processes
accept events in order, spawning a handler task for each accepted
connection, and `break`s out of the loop at the first accept error; the
returned list is the connections for which a handler was spawned. -/
def acceptLoop : List AcceptEvent → List Nat
  | [] => []
  | AcceptEvent.conn id :: rest => id :: acceptLoop rest
  | AcceptEvent.acceptErr :: _ => []

/-! ## Helper lemmas about the lifecycle operations -/

/-- Aborting the stored task does not touch the client handle. -/
theorem abortTask_artiClient (s : GlobalState) : (abortTask s).artiClient = s.artiClient := by
  unfold abortTask; cases s.socksTask <;> rfl

/-- Aborting the stored task does not touch the runtime. -/
theorem abortTask_tokioRuntime (s : GlobalState) : (abortTask s).tokioRuntime = s.tokioRuntime := by
  unfold abortTask; cases s.socksTask <;> rfl

/-- Aborting the stored task does not touch the once guard. -/
theorem abortTask_initOnceRan (s : GlobalState) : (abortTask s).initOnceRan = s.initOnceRan := by
  unfold abortTask; cases s.socksTask <;> rfl

/-- After `take()` the task slot is always empty. -/
theorem abortTask_socksTask (s : GlobalState) : (abortTask s).socksTask = none := by
  unfold abortTask
  cases hs : s.socksTask
  · exact hs
  · rfl

/-- Whatever task was stored is aborted by the `take()`/`abort()` pair. -/
theorem abortTask_aborted (s : GlobalState) :
    ∀ t ∈ s.socksTask, t.taskId ∈ (abortTask s).abortedTasks := by
  intro t ht
  unfold abortTask
  cases hs : s.socksTask with
  | none => rw [hs] at ht; simp at ht
  | some u => rw [hs] at ht; simp at ht; subst ht; simp

/-- `startSocksProxy` never writes the client-handle slot. -/
theorem startProxy_artiClient (s : GlobalState) (p : Int) (b : Bool) (t : Nat) :
    ((startProxy s p b t).1).artiClient = s.artiClient := by
  cases hs : s.socksTask <;> cases hc : s.artiClient <;>
    simp only [startProxy, abortTask, hs, hc] <;> split_ifs <;> rfl

/-- `startSocksProxy` never writes the runtime slot. -/
theorem startProxy_tokioRuntime (s : GlobalState) (p : Int) (b : Bool) (t : Nat) :
    ((startProxy s p b t).1).tokioRuntime = s.tokioRuntime := by
  cases hs : s.socksTask <;> cases hc : s.artiClient <;>
    simp only [startProxy, abortTask, hs, hc] <;> split_ifs <;> rfl

/-- `startSocksProxy` never writes the once guard. -/
theorem startProxy_initOnceRan (s : GlobalState) (p : Int) (b : Bool) (t : Nat) :
    ((startProxy s p b t).1).initOnceRan = s.initOnceRan := by
  cases hs : s.socksTask <;> cases hc : s.artiClient <;>
    simp only [startProxy, abortTask, hs, hc] <;> split_ifs <;> rfl

/-- `stop` never writes the client-handle slot. -/
theorem stop_artiClient (s : GlobalState) : ((stop s).1).artiClient = s.artiClient := by
  cases hs : s.socksTask <;> simp only [stop, abortTask, hs]

/-- `stop` never writes the runtime slot. -/
theorem stop_tokioRuntime (s : GlobalState) : ((stop s).1).tokioRuntime = s.tokioRuntime := by
  cases hs : s.socksTask <;> simp only [stop, abortTask, hs]

/-- `stop` never writes the once guard. -/
theorem stop_initOnceRan (s : GlobalState) : ((stop s).1).initOnceRan = s.initOnceRan := by
  cases hs : s.socksTask <;> simp only [stop, abortTask, hs]

/-- `stop` always leaves the task slot empty. -/
theorem stop_socksTask (s : GlobalState) : ((stop s).1).socksTask = none := by
  cases hs : s.socksTask <;> simp only [stop, abortTask, hs]

/-- `stop` always ends in the `Stopped` lifecycle phase. -/
theorem stop_lifecycle (s : GlobalState) : ((stop s).1).lifecycle = Lifecycle.Stopped := by
  cases hs : s.socksTask <;> simp only [stop, abortTask, hs]

/-- `stop` always returns 0. -/
theorem stop_code (s : GlobalState) : (stop s).2 = 0 := by
  cases hs : s.socksTask <;> simp only [stop, abortTask, hs]

/-- `initialize` never writes the task slot. -/
theorem initArti_socksTask (s : GlobalState) (a b c : Bool) (d : Option Nat) :
    ((initArti s a b c d).1).socksTask = s.socksTask := by
  cases a <;> cases b <;> cases c <;> cases d <;> cases hr : s.initOnceRan <;>
    simp only [initArti, hr] <;> split_ifs <;> rfl

/-- A failing `initialize` call leaves the client-handle slot exactly as it
was. -/
theorem initArti_fail_artiClient (s : GlobalState) (a b c : Bool) (d : Option Nat)
    (h : (initArti s a b c d).2 ≠ 0) :
    ((initArti s a b c d).1).artiClient = s.artiClient := by
  cases a <;> cases b <;> cases c <;> cases d <;> cases hr : s.initOnceRan <;>
    simp only [initArti, hr] at h ⊢ <;> split_ifs at h ⊢ <;> simp_all

/-! ## C1: bind failure in startProxy -/

/-- C1 counterexample: the claim says that after a `startSocksProxy` call
that fails at bind time there is no state change and a previously running
listener task is still stored. In the code the previous task is taken and
aborted BEFORE the bind attempt, so from `runningState` (stored task id 3)
a bind-failing call returns -3 but leaves the task slot empty and task 3
aborted - the stored task is gone, refuting the no-state-change part. -/
theorem startProxy_bindFailure_state_change_cex :
    (startProxy runningState 9050 false 4).2 = -3 ∧
    ((startProxy runningState 9050 false 4).1).socksTask ≠ some ⟨3, 7⟩ ∧
    ((startProxy runningState 9050 false 4).1).socksTask = none ∧
    3 ∈ ((startProxy runningState 9050 false 4).1).abortedTasks := by
  decide

/-- C1 (amended): if binding the local TCP listener fails during
`startSocksProxy`, the call returns the bind-failure code -3 synchronously
and no background accept task is started (the task slot is empty), and the
client handle and runtime are untouched; however, any previously stored
listener task has already been taken from the slot and aborted before the
bind attempt, so it is NOT still stored after the failed call. -/
theorem startProxy_bindFailure_amended (s : GlobalState) (port : Int) (tid : Nat)
    (hc : (s.artiClient).isSome = true) (hr : s.tokioRuntime = true) :
    (startProxy s port false tid).2 = -3 ∧
    ((startProxy s port false tid).1).socksTask = none ∧
    ((startProxy s port false tid).1).artiClient = s.artiClient ∧
    ((startProxy s port false tid).1).tokioRuntime = s.tokioRuntime ∧
    (∀ t ∈ s.socksTask, t.taskId ∈ ((startProxy s port false tid).1).abortedTasks) := by
  obtain ⟨h, hh⟩ := Option.isSome_iff_exists.mp hc
  refine ⟨?_, ?_, startProxy_artiClient s port false tid,
    startProxy_tokioRuntime s port false tid, ?_⟩
  · cases hs : s.socksTask <;> simp [startProxy, abortTask, hs, hh, hr]
  · cases hs : s.socksTask <;> simp [startProxy, abortTask, hs, hh, hr]
  · intro t ht
    cases hs : s.socksTask with
    | none => rw [hs] at ht; simp at ht
    | some u =>
      rw [hs] at ht; simp at ht; subst ht
      cases hb : (addrPortValid port) <;> simp [startProxy, abortTask, hs, hh, hr, hb]

/-- C1 witness: the amended theorem applied at `runningState` with port
9050 and a failing bind. -/
theorem startProxy_bindFailure_amended_witness :
    (startProxy runningState 9050 false 4).2 = -3 ∧
    ((startProxy runningState 9050 false 4).1).socksTask = none ∧
    ((startProxy runningState 9050 false 4).1).artiClient = some 7 := by
  have h := startProxy_bindFailure_amended runningState 9050 4 (by decide) (by decide)
  exact ⟨h.1, h.2.1, h.2.2.1.trans (by decide)⟩

/-! ## C2: result codes of initialize -/

/-- C2 counterexample: config-build failure and bootstrap failure do NOT
return different codes; from a state with a live runtime, both return -3.
-/
theorem initArti_shared_failure_code_cex :
    (initArti engineReadyState true true false none).2 = -3 ∧
    (initArti engineReadyState true true true none).2 = -3 := by
  decide

/-- C2 (amended): `initialize` returns -1 for data-directory string
conversion failure, -2 when the runtime engine is unavailable (creation
failed now or earlier), and -3 for BOTH config-build failure and bootstrap
failure, which share a code; in every failure case the client-handle slot
is left exactly as it was (in particular it stays unset if it was unset).
-/
theorem initArti_failure_codes_amended (s : GlobalState)
    (strOk engineOk configOk : Bool) (bootRes : Option Nat) :
    ((initArti s strOk engineOk configOk bootRes).2 ≠ 0 →
      ((initArti s strOk engineOk configOk bootRes).1).artiClient = s.artiClient) ∧
    (strOk = false → (initArti s strOk engineOk configOk bootRes).2 = -1) ∧
    (strOk = true → s.initOnceRan = false → engineOk = false →
      (initArti s strOk engineOk configOk bootRes).2 = -2) ∧
    (strOk = true → s.initOnceRan = true → s.tokioRuntime = false →
      (initArti s strOk engineOk configOk bootRes).2 = -2) ∧
    (strOk = true → s.initOnceRan = true → s.tokioRuntime = true → configOk = false →
      (initArti s strOk engineOk configOk bootRes).2 = -3) ∧
    (strOk = true → s.initOnceRan = true → s.tokioRuntime = true → configOk = true →
      bootRes = none → (initArti s strOk engineOk configOk bootRes).2 = -3) := by
  refine ⟨initArti_fail_artiClient s strOk engineOk configOk bootRes, ?_, ?_, ?_, ?_, ?_⟩ <;>
    (intros; subst_vars;
     cases hro : s.initOnceRan <;> cases hrt : s.tokioRuntime <;>
       simp_all [initArti])

/-- C2 witness: the amended theorem applied at `engineReadyState`, showing
the -3 code for a config failure and for a bootstrap failure, and the
handle slot still unset after the config failure. -/
theorem initArti_failure_codes_amended_witness :
    (initArti engineReadyState true true false none).2 = -3 ∧
    (initArti engineReadyState true true true none).2 = -3 ∧
    ((initArti engineReadyState true true false none).1).artiClient = none := by
  have h1 := initArti_failure_codes_amended engineReadyState true true false none
  have h2 := initArti_failure_codes_amended engineReadyState true true true none
  exact ⟨h1.2.2.2.2.1 rfl rfl rfl rfl, h2.2.2.2.2.2 rfl rfl rfl rfl rfl,
    (h1.1 (by decide)).trans (by decide)⟩

/-! ## Further helper lemmas -/

/-- A `startSocksProxy` call with a stored client, a live runtime and a
successful bind returns 0 and stores the new listener task holding the
current client handle. -/
theorem startProxy_success (s : GlobalState) (port : Int) (tid : Nat) (h : Nat)
    (hh : s.artiClient = some h) (hr : s.tokioRuntime = true)
    (hp : addrPortValid port = true) :
    (startProxy s port true tid).2 = 0 ∧
    ((startProxy s port true tid).1).socksTask = some ⟨tid, h⟩ := by
  cases hs : s.socksTask <;> simp [startProxy, abortTask, hs, hh, hr, hp]

/-- `initialize` preserves the state invariant. -/
theorem stateInv_initArti (s : GlobalState) (a b c : Bool) (d : Option Nat)
    (h : StateInv s) : StateInv ((initArti s a b c d).1) := by
  obtain ⟨h1, h2⟩ := h
  cases a <;> cases b <;> cases c <;> cases d <;>
    cases hro : s.initOnceRan <;> cases hrt : s.tokioRuntime <;>
      simp_all [initArti, StateInv]

/-- `startSocksProxy` preserves the state invariant. -/
theorem stateInv_startProxy (s : GlobalState) (p : Int) (b : Bool) (t : Nat)
    (h : StateInv s) : StateInv ((startProxy s p b t).1) := by
  obtain ⟨h1, h2⟩ := h
  exact ⟨by rw [startProxy_tokioRuntime, startProxy_initOnceRan]; exact h1,
    by rw [startProxy_artiClient, startProxy_tokioRuntime]; exact h2⟩

/-- `stop` preserves the state invariant. -/
theorem stateInv_stop (s : GlobalState) (h : StateInv s) : StateInv ((stop s).1) := by
  obtain ⟨h1, h2⟩ := h
  exact ⟨by rw [stop_tokioRuntime, stop_initOnceRan]; exact h1,
    by rw [stop_artiClient, stop_tokioRuntime]; exact h2⟩

/-- Every reachable state satisfies the invariant. -/
theorem reachable_stateInv : ∀ s : GlobalState, Reachable s → StateInv s := by
  intro s h
  induction h with
  | refl => exact ⟨by simp [initialState], by simp [initialState]⟩
  | next op hr ih =>
    cases op with
    | opInitArti a b c d => exact stateInv_initArti _ a b c d ih
    | opStartProxy p b t => exact stateInv_startProxy _ p b t ih
    | opStop => exact stateInv_stop _ ih
    | opGetVersion => exact ih
    | opSetLogCallback => exact ih

/-- `initialize` never unsets a stored client handle. -/
theorem initArti_isSome (s : GlobalState) (a b c : Bool) (d : Option Nat)
    (h : (s.artiClient).isSome = true) :
    (((initArti s a b c d).1).artiClient).isSome = true := by
  cases a <;> cases b <;> cases c <;> cases d <;>
    cases hro : s.initOnceRan <;> cases hrt : s.tokioRuntime <;>
      simp_all [initArti]

/-- A port outside `0..=65535` never yields a parseable bind address. -/
theorem addrPortValid_out (port : Int) (h : port < 0 ∨ 65535 < port) :
    addrPortValid port = false := by
  rcases h with h | h <;> simp [addrPortValid] <;> omega

/-! ## C7: stop always succeeds and preserves the client handle -/

/-- C7: `stop` always returns the success code 0 and ends in the `Stopped`
lifecycle phase, whether or not a listener task was stored, and it leaves
the stored client handle unchanged; consequently a subsequent
`startSocksProxy` (given a live runtime and a successful bind) succeeds
and reuses that same handle without a new `initialize`. -/
theorem stop_always_succeeds_preserves_client :
    ∀ s : GlobalState,
      (stop s).2 = 0 ∧
      ((stop s).1).lifecycle = Lifecycle.Stopped ∧
      ((stop s).1).artiClient = s.artiClient ∧
      (∀ (h : Nat) (port : Int) (tid : Nat),
        s.artiClient = some h → s.tokioRuntime = true → addrPortValid port = true →
        (startProxy ((stop s).1) port true tid).2 = 0 ∧
        ((startProxy ((stop s).1) port true tid).1).socksTask = some ⟨tid, h⟩) := by
  intro s
  refine ⟨stop_code s, stop_lifecycle s, stop_artiClient s, ?_⟩
  intro h port tid hh hr hp
  exact startProxy_success _ port tid h (by rw [stop_artiClient, hh])
    (by rw [stop_tokioRuntime]; exact hr) hp

/-- C7 witness: from `runningState` (stored task id 3, client 7), `stop`
returns 0, ends `Stopped`, keeps handle 7, and the next `startSocksProxy`
succeeds reusing handle 7. -/
theorem stop_always_succeeds_preserves_client_witness :
    (stop runningState).2 = 0 ∧
    ((stop runningState).1).lifecycle = Lifecycle.Stopped ∧
    ((stop runningState).1).artiClient = some 7 ∧
    (startProxy ((stop runningState).1) 9050 true 4).2 = 0 := by
  have h := stop_always_succeeds_preserves_client runningState
  exact ⟨h.1, h.2.1, h.2.2.1.trans (by decide),
    (h.2.2.2 7 9050 4 (by decide) (by decide) (by decide)).1⟩

/-! ## C9: the client handle is never cleared -/

/-- C9: once the client handle is stored, no operation clears it: every
step preserves `isSome`, `startSocksProxy` and `stop` leave the slot
untouched, a failing `initialize` leaves the previous handle in place, and
in every reachable state where the handle is set the runtime engine is set
too. -/
theorem client_handle_never_cleared :
    (∀ (s : GlobalState) (op : Op), (s.artiClient).isSome = true →
        (((step s op)).artiClient).isSome = true) ∧
    (∀ (s : GlobalState) (port : Int) (b : Bool) (t : Nat),
        ((startProxy s port b t).1).artiClient = s.artiClient) ∧
    (∀ s : GlobalState, ((stop s).1).artiClient = s.artiClient) ∧
    (∀ (s : GlobalState) (a b c : Bool) (d : Option Nat),
        (initArti s a b c d).2 ≠ 0 →
        ((initArti s a b c d).1).artiClient = s.artiClient) ∧
    (∀ s : GlobalState, Reachable s → (s.artiClient).isSome = true →
        s.tokioRuntime = true) := by
  refine ⟨?_, startProxy_artiClient, stop_artiClient, initArti_fail_artiClient, ?_⟩
  · intro s op h
    cases op with
    | opInitArti a b c d => exact initArti_isSome s a b c d h
    | opStartProxy p b t =>
      show (((startProxy s p b t).1).artiClient).isSome = true
      rw [startProxy_artiClient]; exact h
    | opStop =>
      show (((stop s).1).artiClient).isSome = true
      rw [stop_artiClient]; exact h
    | opGetVersion => exact h
    | opSetLogCallback => exact h
  · intro s hr h
    exact (reachable_stateInv s hr).2 h

/-- C9 witness: after one successful `initialize` from the start state the
handle is set and, that state being reachable, the theorem yields that the
runtime is set. -/
theorem client_handle_never_cleared_witness :
    ((step initialState (Op.opInitArti true true true (some 7))).artiClient).isSome = true ∧
    (step initialState (Op.opInitArti true true true (some 7))).tokioRuntime = true := by
  refine ⟨by decide, ?_⟩
  exact client_handle_never_cleared.2.2.2.2 _ (Reachable.next _ Reachable.refl) (by decide)

/-! ## C10: startProxy is total and surfaces bind failures as -3 -/

/-- C10: `startSocksProxy` is a total function (never panics): its result
code is always one of 0, -1, -2, -3; and whenever the bind cannot succeed
(in particular for every port outside `0..=65535`, where
`"127.0.0.1:port"` does not even parse), a call made with a stored client
and live runtime returns the ordinary bind-failure code -3. -/
theorem startProxy_total_bind_failure_code :
    (∀ (s : GlobalState) (port : Int) (b : Bool) (t : Nat),
        (startProxy s port b t).2 = 0 ∨ (startProxy s port b t).2 = -1 ∨
        (startProxy s port b t).2 = -2 ∨ (startProxy s port b t).2 = -3) ∧
    (∀ (s : GlobalState) (port : Int) (b : Bool) (t : Nat),
        (addrPortValid port && b) = false →
        (s.artiClient).isSome = true → s.tokioRuntime = true →
        (startProxy s port b t).2 = -3) ∧
    (∀ (s : GlobalState) (port : Int) (b : Bool) (t : Nat),
        (port < 0 ∨ 65535 < port) →
        (s.artiClient).isSome = true → s.tokioRuntime = true →
        (startProxy s port b t).2 = -3) := by
  have h2 : ∀ (s : GlobalState) (port : Int) (b : Bool) (t : Nat),
      (addrPortValid port && b) = false →
      (s.artiClient).isSome = true → s.tokioRuntime = true →
      (startProxy s port b t).2 = -3 := by
    intro s port b t hpb hc hr
    obtain ⟨h, hh⟩ := Option.isSome_iff_exists.mp hc
    cases hs : s.socksTask <;> simp [startProxy, abortTask, hs, hh, hr, hpb]
  refine ⟨?_, h2, ?_⟩
  · intro s port b t
    cases hs : s.socksTask <;> cases hc : s.artiClient <;>
      simp [startProxy, abortTask, hs, hc] <;> split_ifs <;> simp
  · intro s port b t hp hc hr
    exact h2 s port b t (by rw [addrPortValid_out port hp]; rfl) hc hr

/-- C10 witness: the negative port -1 and the overflowing port 65536 both
return -3 from a fully initialized state, even with a permissive
operating-system bind. -/
theorem startProxy_total_bind_failure_code_witness :
    (startProxy runningState (-1) true 2).2 = -3 ∧
    (startProxy runningState 65536 true 2).2 = -3 := by
  exact ⟨startProxy_total_bind_failure_code.2.2 runningState (-1) true 2
      (Or.inl (by decide)) (by decide) (by decide),
    startProxy_total_bind_failure_code.2.2 runningState 65536 true 2
      (Or.inr (by decide)) (by decide) (by decide)⟩

/-! ## C8: an accept error terminates the whole accept loop -/

/-- C8: if an accept attempt returns an error, the entire accept loop
exits: no connection after the first error event is ever handled, whatever
comes after it; and no operation other than `startSocksProxy` ever
installs a listener task, so no further connections are accepted until a
fresh `startSocksProxy` rebinds. -/
theorem accept_error_terminates_loop :
    (∀ (pre post : List AcceptEvent), AcceptEvent.acceptErr ∉ pre →
        acceptLoop (pre ++ AcceptEvent.acceptErr :: post) = acceptLoop pre) ∧
    (∀ (s : GlobalState) (op : Op), isStartProxyOp op = false →
        ((step s op).socksTask = s.socksTask ∨ (step s op).socksTask = none)) := by
  constructor
  · intro pre post
    induction pre with
    | nil => intro _; rfl
    | cons e rest ih =>
      intro hpre
      cases e with
      | conn id =>
        have hmem : AcceptEvent.acceptErr ∉ rest := fun hm => hpre (List.mem_cons_of_mem _ hm)
        simp only [List.cons_append, acceptLoop, List.append_eq, ih hmem]
      | acceptErr => exact absurd (List.mem_cons_self _ _) hpre
  · intro s op hop
    cases op with
    | opInitArti a b c d => exact Or.inl (initArti_socksTask s a b c d)
    | opStartProxy p b t => simp [isStartProxyOp] at hop
    | opStop => exact Or.inr (stop_socksTask s)
    | opGetVersion => exact Or.inl rfl
    | opSetLogCallback => exact Or.inl rfl

/-- C8 witness: with two accepted connections before an error and one
after it, only the first two are handled; and a `stop` call never installs
a task. -/
theorem accept_error_terminates_loop_witness :
    acceptLoop ([AcceptEvent.conn 1, AcceptEvent.conn 2] ++
        AcceptEvent.acceptErr :: [AcceptEvent.conn 3]) = [1, 2] ∧
    ((step runningState Op.opStop).socksTask = runningState.socksTask ∨
      (step runningState Op.opStop).socksTask = none) := by
  refine ⟨?_, accept_error_terminates_loop.2 runningState Op.opStop (by decide)⟩
  exact (accept_error_terminates_loop.1 [AcceptEvent.conn 1, AcceptEvent.conn 2]
    [AcceptEvent.conn 3] (by decide)).trans (by decide)

/-! ## Helper lemmas about the SOCKS5 handler -/

/-- The `02x` rendering of a byte is always exactly two characters. -/
theorem hex02_length (b : Nat) : (hex02 b).length = 2 := rfl

/-- A domain-name request whose buffer is shorter than `5 + len + 2` bytes
fails with the invalid-domain-name-length error, writing nothing beyond
the handshake reply. -/
theorem domain_too_short_fails (greeting request : List Nat) (connectOk : Bool)
    (hg : 2 ≤ greeting.length) (hn : 10 ≤ request.length)
    (hv : request.getD 0 0 = 5) (hc : request.getD 1 0 = 1)
    (ha : request.getD 3 0 = 3)
    (hlen : request.length < 5 + request.getD 4 0 + 2) :
    handle_socks_connection greeting request connectOk =
      { writes := [[0x05, 0x00]], connectAttempt := none
        result := Except.error "Invalid domain name length" } := by
  simp only [List.getD_eq_getElem?_getD] at hlen
  unfold handle_socks_connection
  rw [if_neg (by omega), if_neg (by omega)]
  simp only [hv, hc, ha]
  norm_num
  intro h
  exfalso
  omega

/-- A domain-name request with enough bytes parses the host as the lossy
UTF-8 decoding of the `len` bytes after the length byte, and the port as
the big-endian value of the following two bytes. -/
theorem domain_parse_ok (greeting request : List Nat) (connectOk : Bool)
    (hg : 2 ≤ greeting.length) (hn : 10 ≤ request.length)
    (hv : request.getD 0 0 = 5) (hc : request.getD 1 0 = 1)
    (ha : request.getD 3 0 = 3)
    (hlen : 5 + request.getD 4 0 + 2 ≤ request.length) :
    (handle_socks_connection greeting request connectOk).connectAttempt =
      some (utf8DecodeLossy ((request.drop 5).take (request.getD 4 0)),
        u16FromBeBytes (request.getD (5 + request.getD 4 0) 0)
          (request.getD (5 + request.getD 4 0 + 1) 0)) := by
  simp only [List.getD_eq_getElem?_getD] at hlen
  unfold handle_socks_connection
  rw [if_neg (by omega), if_neg (by omega)]
  simp only [hv, hc, ha]
  norm_num [connectAndRelay]
  rw [if_neg (by omega)]
  split <;> simp

/-- A truncated IPv6 request (fewer than 22 bytes read) sends the
general-failure reply `05 01 00 01 00 00 00 00 00 00` and then fails. -/
theorem ipv6_truncated_reply (greeting request : List Nat) (connectOk : Bool)
    (hg : 2 ≤ greeting.length) (hn : 10 ≤ request.length)
    (hv : request.getD 0 0 = 5) (hc : request.getD 1 0 = 1)
    (ha : request.getD 3 0 = 4)
    (hlen : request.length < 22) :
    handle_socks_connection greeting request connectOk =
      { writes := [[0x05, 0x00], socksReply 0x01], connectAttempt := none
        result := Except.error "Truncated IPv6 request" } := by
  unfold handle_socks_connection
  rw [if_neg (by omega), if_neg (by omega)]
  simp only [hv, hc, ha]
  norm_num [socksReply]
  intro h
  exfalso
  omega

/-- A complete IPv6 request parses the host as the eight colon-separated
`02x02x` groups of bytes 4..19 and the port as the big-endian value of
bytes 20..21. -/
theorem ipv6_parse_ok (greeting request : List Nat) (connectOk : Bool)
    (hg : 2 ≤ greeting.length) (hn : 10 ≤ request.length)
    (hv : request.getD 0 0 = 5) (hc : request.getD 1 0 = 1)
    (ha : request.getD 3 0 = 4)
    (hlen : 22 ≤ request.length) :
    (handle_socks_connection greeting request connectOk).connectAttempt =
      some (String.intercalate ":" (ipv6Groups request),
        u16FromBeBytes (request.getD 20 0) (request.getD 21 0)) := by
  unfold handle_socks_connection
  rw [if_neg (by omega), if_neg (by omega)]
  simp only [hv, hc, ha]
  norm_num [connectAndRelay]
  rw [if_neg (by omega)]
  split <;> simp

/-! ## C3: IPv4 address extraction -/

/-- C3: for every well-formed CONNECT request with address-type 0x01, the
target passed to `client.connect` is the dotted-decimal rendering of
request bytes 4..7 together with the big-endian 16-bit value of bytes
8..9. -/
theorem socks_ipv4_host_port (greeting request : List Nat) (connectOk : Bool)
    (hg : 2 ≤ greeting.length) (hn : 10 ≤ request.length)
    (hv : request.getD 0 0 = 5) (hc : request.getD 1 0 = 1)
    (ha : request.getD 3 0 = 1) :
    (handle_socks_connection greeting request connectOk).connectAttempt =
      some (dottedDecimal (request.getD 4 0) (request.getD 5 0)
              (request.getD 6 0) (request.getD 7 0),
            u16FromBeBytes (request.getD 8 0) (request.getD 9 0)) := by
  unfold handle_socks_connection
  rw [if_neg (by omega), if_neg (by omega)]
  simp only [hv, hc, ha]
  norm_num [connectAndRelay]
  split <;> simp

/-- C3 witness: address bytes `[93, 184, 216, 34]` and port bytes
`[0, 80]` yield host `93.184.216.34` and port 80. -/
theorem socks_ipv4_host_port_witness :
    (handle_socks_connection [5, 1] [5, 1, 0, 1, 93, 184, 216, 34, 0, 80] true).connectAttempt =
      some ("93.184.216.34", 80) := by
  exact (socks_ipv4_host_port [5, 1] [5, 1, 0, 1, 93, 184, 216, 34, 0, 80] true
    (by decide) (by decide) (by decide) (by decide) (by decide)).trans (by decide)

/-! ## C4: non-CONNECT commands -/

/-- C4: for every request with version 5 and a command byte other than
0x01, the handler writes the handshake reply followed by exactly the ten
bytes `05 07 00 01 00 00 00 00 00 00` and fails the connection without any
connect attempt. -/
theorem socks_unsupported_command_reply (greeting request : List Nat) (connectOk : Bool)
    (hg : 2 ≤ greeting.length) (hn : 10 ≤ request.length)
    (hv : request.getD 0 0 = 5) (hc : request.getD 1 0 ≠ 1) :
    handle_socks_connection greeting request connectOk =
      { writes := [[0x05, 0x00], socksReply 0x07]
        connectAttempt := none
        result := Except.error ("Unsupported SOCKS command: " ++ toString (request.getD 1 0)) } := by
  unfold handle_socks_connection
  rw [if_neg (by omega), if_neg (by omega)]
  simp only [hv, hc]
  norm_num [socksReply]
  intro h1
  exact absurd (by simpa using h1) hc

/-- C4 witness: command byte 2 (BIND) gets exactly the
command-not-supported reply and no connect attempt. -/
theorem socks_unsupported_command_reply_witness :
    handle_socks_connection [5, 1] [5, 2, 0, 1, 93, 184, 216, 34, 0, 80] true =
      { writes := [[5, 0], [5, 7, 0, 1, 0, 0, 0, 0, 0, 0]]
        connectAttempt := none
        result := Except.error "Unsupported SOCKS command: 2" } := by
  exact (socks_unsupported_command_reply [5, 1] [5, 2, 0, 1, 93, 184, 216, 34, 0, 80] true
    (by decide) (by decide) (by decide) (by decide)).trans (by decide)

/-! ## C5: domain-name length check -/

/-- C5: for every request with address-type 0x03 and length byte `len`, if
the read buffer holds fewer than `5 + len + 2` bytes the handler fails
with the invalid-domain-name-length error and writes no reply for the
request (only the earlier handshake reply was written); with enough bytes,
the host is the lossy UTF-8 decoding of the `len` bytes after the length
byte and the port is the big-endian value of the following two bytes. -/
theorem socks_domain_length_check (greeting request : List Nat) (connectOk : Bool)
    (hg : 2 ≤ greeting.length) (hn : 10 ≤ request.length)
    (hv : request.getD 0 0 = 5) (hc : request.getD 1 0 = 1)
    (ha : request.getD 3 0 = 3) :
    (request.length < 5 + request.getD 4 0 + 2 →
      handle_socks_connection greeting request connectOk =
        { writes := [[0x05, 0x00]], connectAttempt := none
          result := Except.error "Invalid domain name length" }) ∧
    (5 + request.getD 4 0 + 2 ≤ request.length →
      (handle_socks_connection greeting request connectOk).connectAttempt =
        some (utf8DecodeLossy ((request.drop 5).take (request.getD 4 0)),
          u16FromBeBytes (request.getD (5 + request.getD 4 0) 0)
            (request.getD (5 + request.getD 4 0 + 1) 0))) :=
  ⟨fun hlen => domain_too_short_fails greeting request connectOk hg hn hv hc ha hlen,
   fun hlen => domain_parse_ok greeting request connectOk hg hn hv hc ha hlen⟩

/-- C5 witness: length byte 5 with a 10-byte buffer (shorter than 12)
fails with no reply beyond the handshake; a complete request for
`example` port 80 parses to `("example", 80)`. -/
theorem socks_domain_length_check_witness :
    handle_socks_connection [5, 1] [5, 1, 0, 3, 5, 101, 120, 97, 109, 112] true =
      { writes := [[5, 0]], connectAttempt := none
        result := Except.error "Invalid domain name length" } ∧
    (handle_socks_connection [5, 1]
        [5, 1, 0, 3, 7, 101, 120, 97, 109, 112, 108, 101, 0, 80] true).connectAttempt =
      some ("example", 80) := by
  refine ⟨((socks_domain_length_check [5, 1] [5, 1, 0, 3, 5, 101, 120, 97, 109, 112] true
    (by decide) (by decide) (by decide) (by decide) (by decide)).1 (by decide)).trans (by decide), ?_⟩
  exact ((socks_domain_length_check [5, 1]
    [5, 1, 0, 3, 7, 101, 120, 97, 109, 112, 108, 101, 0, 80] true
    (by decide) (by decide) (by decide) (by decide) (by decide)).2 (by decide)).trans (by decide)

/-! ## C6: IPv6 parsing and truncation reply -/

/-- C6: for every request with address-type 0x04: if fewer than 22 bytes
were read, the handler sends the handshake reply followed by the ten bytes
`05 01 00 01 00 00 00 00 00 00` before failing; otherwise the host is
rendered as exactly 8 colon-separated 4-hex-digit groups (no
zero-compression) built from bytes 4..19 and the port is the big-endian
value of bytes 20..21. -/
theorem socks_ipv6_parse (greeting request : List Nat) (connectOk : Bool)
    (hg : 2 ≤ greeting.length) (hn : 10 ≤ request.length)
    (hv : request.getD 0 0 = 5) (hc : request.getD 1 0 = 1)
    (ha : request.getD 3 0 = 4) :
    (request.length < 22 →
      handle_socks_connection greeting request connectOk =
        { writes := [[0x05, 0x00], socksReply 0x01], connectAttempt := none
          result := Except.error "Truncated IPv6 request" }) ∧
    (22 ≤ request.length →
      (handle_socks_connection greeting request connectOk).connectAttempt =
        some (String.intercalate ":" (ipv6Groups request),
          u16FromBeBytes (request.getD 20 0) (request.getD 21 0))) ∧
    (ipv6Groups request).length = 8 ∧
    (∀ g ∈ ipv6Groups request, g.length = 4) := by
  refine ⟨fun hlen => ipv6_truncated_reply greeting request connectOk hg hn hv hc ha hlen,
    fun hlen => ipv6_parse_ok greeting request connectOk hg hn hv hc ha hlen, rfl, ?_⟩
  intro g hmem
  simp only [ipv6Groups, List.mem_cons, List.not_mem_nil, or_false] at hmem
  rcases hmem with rfl | rfl | rfl | rfl | rfl | rfl | rfl | rfl <;>
    simp [String.length_append, hex02_length]

/-- C6 witness: a 10-byte IPv6 request gets the general-failure reply; the
address `2001:db8::1` port 443 renders with all eight uncompressed groups.
-/
theorem socks_ipv6_parse_witness :
    handle_socks_connection [5, 1] [5, 1, 0, 4, 1, 2, 3, 4, 5, 6] true =
      { writes := [[5, 0], [5, 1, 0, 1, 0, 0, 0, 0, 0, 0]], connectAttempt := none
        result := Except.error "Truncated IPv6 request" } ∧
    (handle_socks_connection [5, 1]
        [5, 1, 0, 4, 32, 1, 13, 184, 0, 0, 0, 0, 0, 0, 0, 0, 0, 0, 0, 1, 1, 187]
        true).connectAttempt =
      some ("2001:0db8:0000:0000:0000:0000:0000:0001", 443) := by
  refine ⟨((socks_ipv6_parse [5, 1] [5, 1, 0, 4, 1, 2, 3, 4, 5, 6] true
    (by decide) (by decide) (by decide) (by decide) (by decide)).1 (by decide)).trans (by decide), ?_⟩
  exact ((socks_ipv6_parse [5, 1]
    [5, 1, 0, 4, 32, 1, 13, 184, 0, 0, 0, 0, 0, 0, 0, 0, 0, 0, 0, 1, 1, 187] true
    (by decide) (by decide) (by decide) (by decide) (by decide)).2.1 (by decide)).trans (by decide)
